import Mathlib

/-!
Shallow embedding of the ESOP-management analytics core:
`services/csvService.js` (date normalizer, record normalizer, ingestion
pipeline), `services/successProbabilityService.js` (Monte Carlo projector)
and `services/strategyService.js` (strategy synthesizer).

JavaScript numbers are modelled as exact rationals (IEEE-754 rounding noise
is not modelled); NaN is modelled by `none` in an `Option`-typed field.
JavaScript strings are modelled by `String` / `List Char`.  The simulation's
random source (`Math.random` fed through the Box-Muller transform) is
modelled as an injected stream of post-transform draws, following the
design note that the generator is an injectable collaborator while the
per-step transform `mean + z * stdDev` stays in the code.
-/

namespace EsopCore

/- ===== JavaScript primitive semantics ===== -/

/-- Whitespace characters recognised by the JS number/string coercions. -/
def jsWhitespace (c : Char) : Bool :=
  c = ' ' || c = '\t' || c = '\n' || c = '\r'

/-- Decimal digit test. -/
def isDigitChar (c : Char) : Bool :=
  '0' ≤ c && c ≤ '9'

/-- Longest leading run of decimal digits. -/
def takeDigitsC : List Char → List Char
  | [] => []
  | c :: cs => if isDigitChar c then c :: takeDigitsC cs else []

/-- Value of a decimal digit string (most significant digit first). -/
def digitsVal (cs : List Char) : ℕ :=
  cs.foldl (fun a c => 10 * a + (c.toNat - '0'.toNat)) 0

/-- Split a character list at every occurrence of `sep`
(the semantics of JavaScript `String.prototype.split` with a
one-character separator). -/
def splitCh (sep : Char) : List Char → List (List Char)
  | [] => [[]]
  | c :: cs =>
    match splitCh sep cs with
    | [] => [[]]
    | p :: ps => if c = sep then [] :: p :: ps else (c :: p) :: ps

/-- Strip one optional leading sign, returning the sign factor and the
remaining characters. -/
def splitSign (cs : List Char) : ℚ × List Char :=
  match cs with
  | [] => (1, [])
  | c :: r => if c = '-' then (-1, r) else if c = '+' then (1, r) else (1, cs)

/-- JavaScript `parseInt(s, 10)`: skip leading whitespace, optional sign,
then the longest run of decimal digits; `none` models `NaN` (no digits). -/
def jsParseIntCore (cs0 : List Char) : Option ℤ :=
  let cs := cs0.dropWhile jsWhitespace
  let sr := splitSign cs
  let ds := takeDigitsC sr.2
  if ds = [] then none
  else some ((if sr.1 < 0 then -1 else 1) * (digitsVal ds : ℤ))

/-- JavaScript `parseInt(s, 10)` on a string. -/
def jsParseInt (s : String) : Option ℤ := jsParseIntCore s.data

/-- JavaScript `parseFloat(s)` on the decimal fragment
`[ws] [sign] digits [. digits] | [ws] [sign] . digits`
(exponent forms are outside the fragment used by this repository);
`none` models `NaN`. -/
def jsParseFloatCore (cs0 : List Char) : Option ℚ :=
  let cs := cs0.dropWhile jsWhitespace
  let sr := splitSign cs
  let ip := takeDigitsC sr.2
  let rest := sr.2.drop ip.length
  if rest.head? = some '.' then
    let fp := takeDigitsC rest.tail
    if ip = [] ∧ fp = [] then none
    else some (sr.1 * ((digitsVal ip : ℚ) + (digitsVal fp : ℚ) / 10 ^ fp.length))
  else if ip = [] then none
  else some (sr.1 * (digitsVal ip : ℚ))

/-- JavaScript `parseFloat` on a string. -/
def jsParseFloat (s : String) : Option ℚ := jsParseFloatCore s.data

/-- JavaScript `ToNumber` on a string: after trimming whitespace, either the
empty string (value 0) or a full decimal literal; `none` models `NaN`.
Exponent forms and hex literals are outside the modelled fragment. -/
def jsNumberOfChars (cs0 : List Char) : Option ℚ :=
  let t := ((cs0.dropWhile jsWhitespace).reverse.dropWhile jsWhitespace).reverse
  if t = [] then some 0
  else
    let sr := splitSign t
    let ip := takeDigitsC sr.2
    let rest := sr.2.drop ip.length
    if rest = [] then
      if ip = [] then none else some (sr.1 * (digitsVal ip : ℚ))
    else if rest.head? = some '.' then
      let fp := takeDigitsC rest.tail
      if fp.length = rest.tail.length ∧ ¬(ip = [] ∧ fp = []) then
        some (sr.1 * ((digitsVal ip : ℚ) + (digitsVal fp : ℚ) / 10 ^ fp.length))
      else none
    else none

/-- JavaScript `ToInteger`: truncation toward zero. -/
def jsTrunc (q : ℚ) : ℤ := if q < 0 then -⌊-q⌋ else ⌊q⌋

/-- JavaScript `Math.round`: half rounds toward positive infinity. -/
def jsRound (q : ℚ) : ℤ := ⌊q + 1/2⌋

/-- JavaScript `x.toFixed(2)` followed by `parseFloat`, on the exact
rationals of this model: round half up to two decimal places. -/
def jsToFixed2 (x : ℚ) : ℚ := (⌊x * 100 + 1/2⌋ : ℚ) / 100

/-- JavaScript `x.toFixed(1)` followed by `Number`, on the exact rationals
of this model: round half up to one decimal place. -/
def jsToFixed1 (x : ℚ) : ℚ := (⌊x * 10 + 1/2⌋ : ℚ) / 10

/-- JavaScript `v || dflt` on an optionally-present numeric field:
a missing field and the falsy value 0 both select the default. -/
def jsOrQ (v : Option ℚ) (dflt : ℚ) : ℚ :=
  match v with
  | some x => if x = 0 then dflt else x
  | none => dflt

/-- JavaScript `String.prototype.toUpperCase` on the ASCII fragment. -/
def jsToUpper (s : String) : String :=
  ⟨s.data.map Char.toUpper⟩

/- ===== Date normalizer (`parseDate`, csvService.js lines 9-46) ===== -/

/-- Calendar date produced by the date normalizer (the time-of-day and
timezone parts of a JS `Date` carry no information in this pipeline). -/
structure CalDate where
  year : ℤ
  month : ℕ
  day : ℕ
  deriving DecidableEq

/-- Gregorian leap-year rule used by JS `Date`. -/
def isLeap (y : ℤ) : Bool :=
  (y % 4 = 0 && y % 100 ≠ 0) || y % 400 = 0

/-- Days in month `m` (1-12) of year `y`. -/
def daysInMonth (y : ℤ) (m : ℕ) : ℕ :=
  if m = 2 then (if isLeap y then 29 else 28)
  else if m = 4 || m = 6 || m = 9 || m = 11 then 30
  else 31

/-- Two-digit years 0-99 denote 1900-1999 in the numeric `Date`
constructor. -/
def jsYearAdjust (y : ℤ) : ℤ :=
  if 0 ≤ y ∧ y ≤ 99 then 1900 + y else y

/-- Normalise a 0-based month index into a year and a 1-based month. -/
def normYM (y m0 : ℤ) : ℤ × ℕ :=
  (y + m0 / 12, (m0 % 12).toNat + 1)

/-- Day-of-month normalisation by rolling over or under month boundaries,
as the numeric `Date` constructor does; `fuel` bounds the iteration. -/
def rollD : ℕ → ℤ → ℕ → ℤ → CalDate
  | 0, y, m, d => ⟨y, m, d.toNat⟩
  | fuel + 1, y, m, d =>
    if d < 1 then
      let ym : ℤ × ℕ := if m = 1 then (y - 1, 12) else (y, m - 1)
      rollD fuel ym.1 ym.2 (d + daysInMonth ym.1 ym.2)
    else if (daysInMonth y m : ℤ) < d then
      let ym : ℤ × ℕ := if m = 12 then (y + 1, 1) else (y, m + 1)
      rollD fuel ym.1 ym.2 (d - daysInMonth y m)
    else ⟨y, m, d.toNat⟩

/-- The numeric constructor `new Date(year, month0, day)` (calendar part):
two-digit-year adjustment, then month and day rollover. -/
def mkJsDate (y m0 d : ℤ) : CalDate :=
  let y1 := jsYearAdjust y
  let ym := normYM y1 m0
  rollD (d.natAbs + 2) ym.1 ym.2 d

/-- The constructor call `new Date(yS, mS - 1, dS)` on string arguments:
each argument goes through `ToNumber` (NaN gives an invalid date, `none`),
the month argument has 1 subtracted before truncation. -/
def jsNewDateCtor (yS mS dS : List Char) : Option CalDate :=
  match jsNumberOfChars yS, jsNumberOfChars mS, jsNumberOfChars dS with
  | some y, some m, some d => some (mkJsDate (jsTrunc y) (jsTrunc (m - 1)) (jsTrunc d))
  | _, _, _ => none

/-- ISO `YYYY-MM-DD` acceptance by the native parser. -/
def isoYMD (a b c : List Char) : Option CalDate :=
  let y : ℤ := digitsVal a
  let m := digitsVal b
  let d := digitsVal c
  if 1 ≤ m ∧ m ≤ 12 ∧ 1 ≤ d ∧ d ≤ daysInMonth y m then some ⟨y, m, d⟩ else none

/-- Legacy `month/day/year` acceptance by the native parser (three numeric
fields, month 1-12, day within the month, year written with 3-4 digits). -/
def legacyMDY (a b c : List Char) : Option CalDate :=
  if a ≠ [] ∧ b ≠ [] ∧ c ≠ [] ∧ a.all isDigitChar ∧ b.all isDigitChar ∧ c.all isDigitChar then
    let m := digitsVal a
    let d := digitsVal b
    let y : ℤ := digitsVal c
    if 1 ≤ m ∧ m ≤ 12 ∧ 1 ≤ d ∧ d ≤ daysInMonth y m ∧ 100 ≤ digitsVal c ∧ digitsVal c ≤ 9999 then
      some ⟨y, m, d⟩
    else none
  else none

/-- Modelled fragment of the native `new Date(string)` parser of V8/Node:
a full ISO-8601 calendar date `YYYY-MM-DD`, and the legacy three-field
numeric form read as month/day/year with either separator (note the
legacy reading takes the FIRST field as the month also for `-`-separated
strings).  Two-digit-year windowing, time-of-day syntax, month names and
year-first legacy forms are outside the fragment; no theorem below
evaluates the model outside it. -/
def jsDateNative (cs : List Char) : Option CalDate :=
  if '/' ∈ cs then
    match splitCh '/' cs with
    | [a, b, c] => legacyMDY a b c
    | _ => none
  else
    match splitCh '-' cs with
    | [a, b, c] =>
      if a.length = 4 ∧ b.length = 2 ∧ c.length = 2
          ∧ a.all isDigitChar ∧ b.all isDigitChar ∧ c.all isDigitChar then
        isoYMD a b c
      else legacyMDY a b c
    | _ => none

/-- `parseDate` (csvService.js lines 9-46): empty input gives null; then the
native parse of the string as given; then, if the string splits into exactly
three `/`-fields, `new Date(parts[2], parts[0] - 1, parts[1])`; then, if it
splits into exactly three `-`-fields, `new Date(parts[2], parts[1] - 1,
parts[0])`; null when everything fails.  The function is total: it never
throws. -/
def parseDate (s : String) : Option CalDate :=
  let cs := s.data
  if cs = [] then none
  else
    match jsDateNative cs with
    | some d => some d
    | none =>
      let slashRes : Option CalDate :=
        match splitCh '/' cs with
        | [a, b, c] => jsNewDateCtor c a b
        | _ => none
      match slashRes with
      | some d => some d
      | none =>
        match splitCh '-' cs with
        | [a, b, c] => jsNewDateCtor c b a
        | _ => none

/- ===== Record normalizer (`parseAndSaveEsopCSV` row handler) ===== -/

/-- One raw CSV row: a finite map from header names to string cell values;
`none` is an absent column. -/
def RawRow := String → Option String

/-- The alias chain `data.k1 || data.k2 || ...`: the first present,
non-empty (truthy) value. -/
def rowLookup (data : RawRow) : List String → Option String
  | [] => none
  | k :: ks =>
    match data k with
    | some v => if v = "" then rowLookup data ks else some v
    | none => rowLookup data ks

/-- `parseInt(data.k1 || ... || 0, 10)`: the literal default 0 parses to 0;
a present value is parsed, `none` modelling NaN on parse failure. -/
def intField (data : RawRow) (keys : List String) : Option ℤ :=
  match rowLookup data keys with
  | none => some 0
  | some s => jsParseInt s

/-- `parseFloat(data.k1 || ... || 0)`: as `intField` but with the float
parser. -/
def floatField (data : RawRow) (keys : List String) : Option ℚ :=
  match rowLookup data keys with
  | none => some 0
  | some s => jsParseFloat s

/-- One normalized equity-grant record (`processedRow`, csvService.js lines
67-84).  Numeric fields are `Option`-typed with `none` modelling NaN. -/
structure HoldingRecord where
  userId : String
  grantDate : Option CalDate
  exercisePrice : Option ℚ
  vestingSchedule : String
  expirationDate : Option CalDate
  totalGrants : Option ℤ
  vested : Option ℤ
  unvested : Option ℤ
  exercised : Option ℤ
  ticker : String
  type : String
  quantity : Option ℤ
  price : Option ℚ
  exerciseDate : Option CalDate
  status : String
  notes : String
  deriving DecidableEq

/-- The record normalizer: builds `processedRow` from one raw row
(csvService.js lines 61-84). -/
def processRow (data : RawRow) (userId : String) : HoldingRecord :=
  let totalGrants := intField data ["totalGrants", "total_grants", "grants"]
  let vested := intField data ["vested"]
  let unvested := intField data ["unvested"]
  let exercised := intField data ["exercised"]
  let exercisePrice := floatField data ["exercisePrice", "exercise_price", "price"]
  { userId := userId
    grantDate := (rowLookup data ["grantDate", "grant_date", "Grant Date"]).bind (fun s => parseDate s)
    exercisePrice := exercisePrice
    vestingSchedule := (rowLookup data ["vestingSchedule", "vesting_schedule", "Vesting Schedule"]).getD "Standard"
    expirationDate := (rowLookup data ["expirationDate", "expiration_date", "Expiration Date"]).bind (fun s => parseDate s)
    totalGrants := totalGrants
    vested := vested
    unvested := unvested
    exercised := exercised
    ticker := jsToUpper ((rowLookup data ["ticker", "symbol"]).getD "N/A")
    type := (rowLookup data ["type", "option_type"]).getD "ISO"
    quantity := totalGrants
    price := exercisePrice
    exerciseDate := (rowLookup data ["exerciseDate", "exercise_date", "Exercise Date"]).bind (fun s => parseDate s)
    status := if (exercised.map (fun e => decide (0 < e))).getD false then "Exercised" else "Not exercised"
    notes := (rowLookup data ["notes", "comments"]).getD "" }

/- ===== Ingestion pipeline (`parseAndSaveEsopCSV`, lines 48-128) ===== -/

/-- Outcome of one ingestion run: the promise resolves with the saved
records, or rejects with the raw stream error (the parse-phase failure), or
rejects with a `DatabaseError` (the storage-phase failure). -/
inductive IngestOutcome where
  | ok (saved : List HoldingRecord)
  | parseError
  | databaseError
  deriving DecidableEq

/-- Failure behaviour of the storage collaborator during one run. -/
structure DbBehavior where
  deleteFails : Bool
  insertFails : Bool

/-- The storage collaborator state: records keyed by owner id. -/
abbrev Store := List (String × HoldingRecord)

/-- `Esop.deleteMany({ userId })`. -/
def deleteAllByUser (userId : String) (st : Store) : Store :=
  st.filter (fun p => p.1 ≠ userId)

/-- `Esop.insertMany(results)`. -/
def insertMany (rs : List HoldingRecord) (st : Store) : Store :=
  st ++ rs.map (fun r => (r.userId, r))

/-- The ingestion pipeline as a state transformer.  The stream emits `rows`
and then either ends cleanly (`streamError = false`) or errors; rows are
normalized as they arrive but accumulate only in memory.  On clean end the
end-handler deletes the owner's existing records and bulk-inserts the new
batch, wrapping any storage failure in `DatabaseError`; a stream error
rejects the promise with the raw error before any storage call. -/
def parseAndSaveEsopCSV (rows : List RawRow) (streamError : Bool)
    (userId : String) (db : DbBehavior) (st : Store) : IngestOutcome × Store :=
  let results := rows.map (fun d => processRow d userId)
  if streamError then (IngestOutcome.parseError, st)
  else if db.deleteFails then (IngestOutcome.databaseError, st)
  else
    let st1 := deleteAllByUser userId st
    if db.insertFails then (IngestOutcome.databaseError, st1)
    else (IngestOutcome.ok results, insertMany results st1)

/- ===== Monte Carlo projector (successProbabilityService.js) ===== -/

/-- Risk-profile parameters: annualized mean return and standard
deviation. -/
structure RiskParams where
  mean : ℚ
  stdDev : ℚ
  deriving DecidableEq

/-- The lookup `riskProfiles[riskTolerance] || riskProfiles.medium`
(successProbabilityService.js lines 18-24). -/
def riskProfileFor (riskTolerance : String) : RiskParams :=
  if riskTolerance = "low" then ⟨6/100, 8/100⟩
  else if riskTolerance = "medium" then ⟨9/100, 15/100⟩
  else if riskTolerance = "high" then ⟨12/100, 22/100⟩
  else ⟨9/100, 15/100⟩

/-- One scenario's compounded value after `years` annual steps: each step
multiplies by `1 + (mean + z * stdDev)` where `z` is that step's normal
draw (the Box-Muller output, here the injected random source). -/
def trialValue (mean stdDev : ℚ) (z : ℕ → ℚ) (initialInvestment : ℚ) : ℕ → ℚ
  | 0 => initialInvestment
  | y + 1 => trialValue mean stdDev z initialInvestment y * (1 + (mean + z y * stdDev))

/-- Number of the 1000 scenarios whose final value reaches the goal. -/
def successCount (riskTolerance : String) (timeHorizon : ℕ)
    (initialInvestment goalAmount : ℚ) (z : ℕ → ℕ → ℚ) : ℕ :=
  ((List.range 1000).filter (fun i =>
    goalAmount ≤ trialValue (riskProfileFor riskTolerance).mean
      (riskProfileFor riskTolerance).stdDev (z i) initialInvestment timeHorizon)).length

/-- Return value of `runSimulation`. -/
structure SimResult where
  successProbability : ℚ
  riskTolerance : String
  timeHorizon : ℕ
  deriving DecidableEq

/-- `runSimulation(riskTolerance, timeHorizon, initialInvestment,
goalAmount)` with the random draws `z` injected: 1000 scenarios, success
when the compounded value is at least the goal, probability in percent
rounded to two decimals. -/
def runSimulation (riskTolerance : String) (timeHorizon : ℕ)
    (initialInvestment goalAmount : ℚ) (z : ℕ → ℕ → ℚ) : SimResult :=
  { successProbability :=
      jsToFixed2 ((successCount riskTolerance timeHorizon initialInvestment goalAmount z : ℚ) / 1000 * 100)
    riskTolerance := riskTolerance
    timeHorizon := timeHorizon }

/-- One holding as read by the batch projector (the fields it uses). -/
structure Grant where
  vested : ℚ
  exercisePrice : ℚ

/-- Success probabilities for the four horizons of one risk profile. -/
structure ProbTable where
  year5 : ℚ
  year10 : ℚ
  year15 : ℚ
  year20 : ℚ
  deriving DecidableEq

/-- Return value of `generateSuccessProbabilities`. -/
structure SuccessProbabilities where
  lowRisk : ProbTable
  mediumRisk : ProbTable
  highRisk : ProbTable
  deriving DecidableEq

/-- `generateSuccessProbabilities(esopData, userGoals)`: initial investment
is the sum over holdings of vested * exercisePrice, goal is retirementAge *
50000; one simulation per risk profile (the `xRisk` key with `Risk`
stripped) and horizon in {5, 10, 15, 20}.  `z` injects the random draws of
the twelve `runSimulation` calls, indexed by risk tag and horizon. -/
def generateSuccessProbabilities (esopData : List Grant) (retirementAge : ℚ)
    (z : String → ℕ → ℕ → ℕ → ℚ) : SuccessProbabilities :=
  let initialInvestment := esopData.foldl (fun sum g => sum + g.vested * g.exercisePrice) 0
  let goalAmount := retirementAge * 50000
  let p := fun (risk : String) (h : ℕ) =>
    (runSimulation risk h initialInvestment goalAmount (z risk h)).successProbability
  { lowRisk := ⟨p "low" 5, p "low" 10, p "low" 15, p "low" 20⟩
    mediumRisk := ⟨p "medium" 5, p "medium" 10, p "medium" 15, p "medium" 20⟩
    highRisk := ⟨p "high" 5, p "high" 10, p "high" 15, p "high" 20⟩ }

/- ===== Strategy synthesizer (strategyService.js) ===== -/

/-- The user goal profile as read by `generateDetailedStrategies`
(strategyService.js lines 13-17); absent fields are `none` and, like the
falsy value 0, select the source's defaults. -/
structure UserGoals where
  currentAge : Option ℚ
  retirementAge : Option ℚ
  investmentHorizon : Option ℚ
  monthlyIncome : Option ℚ
  monthlyExpenses : Option ℚ

/-- Savings rate derived in `generateDetailedStrategies` (line 18):
`(income - expenses) / income * 100` when income is positive, else 30. -/
def savingsRateOf (g : UserGoals) : ℚ :=
  let monthlyIncome := jsOrQ g.monthlyIncome 100000
  let monthlyExpenses := jsOrQ g.monthlyExpenses 50000
  if 0 < monthlyIncome then (monthlyIncome - monthlyExpenses) / monthlyIncome * 100 else 30

/-- The retirement-focus flag (line 20): age above 45 or fewer than 15
years to retirement. -/
def hasRetirementFocusOf (g : UserGoals) : Bool :=
  let age := jsOrQ g.currentAge 35
  let retirementAge := jsOrQ g.retirementAge 60
  45 < age || retirementAge - age < 15

/-- One row of the base-strategy matrix (lines 22-50); the free-text style
fields are presentation data and are not modelled. -/
structure BaseStrategy where
  bondAllocation : ℚ
  equityAllocation : ℚ
  altAllocation : ℚ
  deriving DecidableEq

/-- The lookup `baseStrategies[riskTolerance]` (lines 22-50, 80): no
fallback, an unrecognized tolerance gives `undefined` (`none`), on which
the first field access throws. -/
def baseStrategies (planningRegion riskTolerance : String) : Option BaseStrategy :=
  if riskTolerance = "low" then
    some ⟨if planningRegion = "us" then 60 else 50, if planningRegion = "us" then 30 else 40, 10⟩
  else if riskTolerance = "medium" then some ⟨40, 50, 10⟩
  else if riskTolerance = "high" then some ⟨20, 70, 10⟩
  else none

/-- Whether `etfExamples[planningRegion]` is defined (lines 53-79): only
the regions `us` and `india` have an entry; any other region leaves
`regionETFs` undefined and the first member access throws. -/
def etfRegionKnown (planningRegion : String) : Bool :=
  planningRegion = "us" || planningRegion = "india"

/-- One strategy object of the returned list; the description, example
instruments and advice strings are presentation text and are not
modelled. -/
structure Strategy where
  title : String
  allocation : ℚ
  deriving DecidableEq

/-- The title of the fourth, profile-dependent strategy (lines 120-152):
retirement income when the retirement-focus flag holds, else opportunistic
growth when the savings rate exceeds 30, else financial safety. -/
def fourthTitle (g : UserGoals) : String :=
  if hasRetirementFocusOf g then "Retirement Income Strategy"
  else if 30 < savingsRateOf g then "Opportunistic Growth Strategy"
  else "Financial Safety Strategy"

/-- `generateDetailedStrategies(planningRegion, riskTolerance, userGoals)`
(lines 11-155): builds the core, sector and ESOP-diversification
strategies and one profile-dependent fourth strategy, in that order.
`none` models the TypeError thrown when `baseStrategies[riskTolerance]` or
`etfExamples[planningRegion]` is undefined. -/
def generateDetailedStrategies (planningRegion riskTolerance : String)
    (userGoals : UserGoals) : Option (List Strategy) :=
  match baseStrategies planningRegion riskTolerance, etfRegionKnown planningRegion with
  | some _, true =>
    let savingsRate := savingsRateOf userGoals
    let hasRetirementFocus := hasRetirementFocusOf userGoals
    let core : Strategy :=
      ⟨"Core Investment Strategy",
        if riskTolerance = "high" then 70 else if riskTolerance = "medium" then 60 else 50⟩
    let sector : Strategy :=
      ⟨"Sector Allocation Strategy",
        if riskTolerance = "high" then 20 else if riskTolerance = "medium" then 15 else 10⟩
    let esopDiversification : Strategy :=
      ⟨"ESOP Diversification Strategy",
        if riskTolerance = "high" then 5 else if riskTolerance = "medium" then 10 else 15⟩
    let fourthStrategy : Strategy :=
      if hasRetirementFocus then
        ⟨"Retirement Income Strategy",
          if riskTolerance = "high" then 5 else if riskTolerance = "medium" then 15 else 25⟩
      else if 30 < savingsRate then
        ⟨"Opportunistic Growth Strategy",
          if riskTolerance = "high" then 5 else if riskTolerance = "medium" then 15 else 10⟩
      else
        ⟨"Financial Safety Strategy",
          if riskTolerance = "high" then 5 else if riskTolerance = "medium" then 15 else 25⟩
    some [core, sector, esopDiversification, fourthStrategy]
  | _, _ => none

/-- Market context passed to `calculateDownsideMetrics`: the optionally
present `marketContext?.benchmarks?.primary?.volatility`. -/
structure MarketContext where
  primaryVolatility : Option ℚ

/-- Return value of `calculateDownsideMetrics`; the advisory string lists
of lines 182-223 are returned verbatim from a fixed table and are
represented by their lookup key. -/
structure DownsideMetrics where
  maxDrawdown : ℚ
  worstYear : ℚ
  volatility : ℚ
  stressRecession : ℚ
  stressMarketCrash : ℚ
  stressInflationSpike : ℚ
  advisories : Option (String × String)
  recoveryTime : String
  deriving DecidableEq

/-- `calculateDownsideMetrics(planningRegion, riskTolerance,
marketContext)` (lines 164-233).  `none` models the TypeError thrown when
`advisories[planningRegion]` is undefined (a region other than `us` and
`india`); an unrecognized risk tolerance leaves the advisory entry
undefined without throwing. -/
def calculateDownsideMetrics (planningRegion riskTolerance : String)
    (marketContext : MarketContext) : Option DownsideMetrics :=
  if planningRegion = "us" || planningRegion = "india" then
    let volatility := jsOrQ marketContext.primaryVolatility
      (if planningRegion = "us" then 142/10 else 165/10)
    let riskMultiplier : ℚ :=
      if riskTolerance = "high" then 2 else if riskTolerance = "medium" then 14/10 else 1
    some
      { maxDrawdown := jsToFixed1 (-1 * volatility * riskMultiplier)
        worstYear := jsToFixed1
          (if riskTolerance = "high" then -35 else if riskTolerance = "medium" then -25 else -15)
        volatility := jsToFixed1 volatility
        stressRecession :=
          if riskTolerance = "high" then -40 else if riskTolerance = "medium" then -30 else -20
        stressMarketCrash :=
          if riskTolerance = "high" then -50 else if riskTolerance = "medium" then -35 else -25
        stressInflationSpike :=
          if riskTolerance = "high" then -15 else if riskTolerance = "medium" then -10 else -5
        advisories :=
          if riskTolerance = "high" || riskTolerance = "medium" || riskTolerance = "low" then
            some (planningRegion, riskTolerance)
          else none
        recoveryTime :=
          if riskTolerance = "high" then "18-36 months"
          else if riskTolerance = "medium" then "12-24 months" else "6-18 months" }
  else none

/-- One benchmark row of the static table (lines 244-333); the description
strings are presentation text and are not modelled. -/
structure Benchmark where
  name : String
  cagr : ℚ
  volatility : ℚ
  sharpe : ℚ
  return1y : ℚ
  return3y : ℚ
  return5y : ℚ
  return10y : ℚ
  deriving DecidableEq

/-- Return value of `generateDetailedBenchmarks`. -/
structure BenchmarksResult where
  primary : Benchmark
  secondary : Benchmark
  alternative : Benchmark
  riskFreeRate : ℚ
  inflationRate : ℚ
  lastUpdated : CalDate
  deriving DecidableEq

/-- `generateDetailedBenchmarks(planningRegion)` (lines 240-365).  The
function reads the ambient clock (`new Date()`) for its `lastUpdated`
field, modelled as the explicit input `today`; every other field comes
from the fixed regional table.  `none` models the TypeError thrown when
`marketData[planningRegion]` is undefined. -/
def generateDetailedBenchmarks (planningRegion : String) (today : CalDate) :
    Option BenchmarksResult :=
  if planningRegion = "us" then
    some
      { primary := ⟨"S&P 500", 105/10, 174/10, 58/100, 182/10, 103/10, 121/10, 105/10⟩
        secondary := ⟨"Nasdaq Composite", 135/10, 228/10, 48/100, 241/10, 142/10, 153/10, 135/10⟩
        alternative := ⟨"Russell 2000", 78/10, 242/10, 14/100, 124/10, 62/10, 81/10, 78/10⟩
        riskFreeRate := 463/100
        inflationRate := 32/10
        lastUpdated := today }
  else if planningRegion = "india" then
    some
      { primary := ⟨"Nifty 50", 112/10, 196/10, 38/100, 153/10, 118/10, 115/10, 112/10⟩
        secondary := ⟨"BSE Sensex", 109/10, 192/10, 36/100, 148/10, 112/10, 111/10, 109/10⟩
        alternative := ⟨"Nifty Next 50", 128/10, 235/10, 26/100, 187/10, 135/10, 132/10, 128/10⟩
        riskFreeRate := 687/100
        inflationRate := 549/100
        lastUpdated := today }
  else none

/-- Clear the clock-derived field, leaving the argument-determined part of
a `BenchmarksResult`. -/
def eraseLastUpdated (r : BenchmarksResult) : BenchmarksResult :=
  { r with lastUpdated := ⟨1970, 1, 1⟩ }

/-- ESOP analytics summary as read by `generateDetailedEsopStrategy`:
the optionally present `analyticsSummary?.esopOverview?.totalValue` and
`analyticsSummary?.riskFlags?.highConcentration`. -/
structure AnalyticsSummary where
  totalValue : Option ℚ
  highConcentration : Bool

/-- The `exerciseFundingStrategy` object (lines 413-419). -/
structure ExerciseFunding where
  estimatedCost : ℤ
  monthlySavingsTarget : ℤ
  annualSellPercentage : ℚ
  taxRate : ℚ
  deriving DecidableEq

/-- The numeric content of the object returned by
`generateDetailedEsopStrategy`; the narrative strings are presentation
text and are not modelled. -/
structure EsopStrategyResult where
  liquidationRecommendation : ℚ
  exerciseFundingStrategy : ExerciseFunding
  deriving DecidableEq

/-- `generateDetailedEsopStrategy(planningRegion, riskTolerance,
analyticsSummary, userGoals)` (lines 374-448): base annual sell percentage
by risk tolerance (20/15/10), raised by 5 and capped at 25 under the
concentration-risk flag; estimated exercise-funding cost
`Math.round(esopValue * 0.2)` and monthly savings target
`Math.round(esopValue * 0.2 / 12)`. -/
def generateDetailedEsopStrategy (planningRegion riskTolerance : String)
    (analyticsSummary : AnalyticsSummary) : EsopStrategyResult :=
  let esopValue := jsOrQ analyticsSummary.totalValue 100000
  let annualSellPercentage : ℚ :=
    if riskTolerance = "high" then 20 else if riskTolerance = "medium" then 15 else 10
  let concentrationRisk := analyticsSummary.highConcentration
  let liquidationRecommendation :=
    if concentrationRisk then min (annualSellPercentage + 5) 25 else annualSellPercentage
  { liquidationRecommendation := liquidationRecommendation
    exerciseFundingStrategy :=
      { estimatedCost := jsRound (esopValue * (20/100))
        monthlySavingsTarget := jsRound (esopValue * (20/100) / 12)
        annualSellPercentage := liquidationRecommendation
        taxRate := if planningRegion = "india" then 10 else 22 } }

/-- The base annual sell percentage of `generateDetailedEsopStrategy`
(line 376): 20 / 15 / 10 for high / medium / any other tolerance. -/
def basePct (riskTolerance : String) : ℚ :=
  if riskTolerance = "high" then 20 else if riskTolerance = "medium" then 15 else 10

/-- The twelve probability entries of a `SuccessProbabilities` value. -/
def probList (r : SuccessProbabilities) : List ℚ :=
  [r.lowRisk.year5, r.lowRisk.year10, r.lowRisk.year15, r.lowRisk.year20,
   r.mediumRisk.year5, r.mediumRisk.year10, r.mediumRisk.year15, r.mediumRisk.year20,
   r.highRisk.year5, r.highRisk.year10, r.highRisk.year15, r.highRisk.year20]

/-- A raw row whose only cell is a non-numeric `totalGrants` value. -/
def rowAbc : RawRow := fun k => if k = "totalGrants" then some "abc" else none

/-- The allocation triple of the standalone lookup. -/
structure Allocation where
  equity : ℚ
  bonds : ℚ
  alternatives : ℚ
  deriving DecidableEq

/-- `getRiskAdjustedAllocation(planningRegion, riskTolerance)` (lines
456-476): the standalone allocation table, with
`allocations[riskTolerance] || allocations.medium` as fallback. -/
def getRiskAdjustedAllocation (planningRegion riskTolerance : String) : Allocation :=
  if riskTolerance = "low" then
    ⟨if planningRegion = "us" then 40 else 45, if planningRegion = "us" then 50 else 45, 10⟩
  else if riskTolerance = "medium" then
    ⟨if planningRegion = "us" then 60 else 55, if planningRegion = "us" then 30 else 35, 10⟩
  else if riskTolerance = "high" then
    ⟨if planningRegion = "us" then 80 else 75, if planningRegion = "us" then 10 else 15, 10⟩
  else
    ⟨if planningRegion = "us" then 60 else 55, if planningRegion = "us" then 30 else 35, 10⟩

/- ===== Shared helper lemmas ===== -/

set_option maxRecDepth 8000

lemma floor_eval {q : ℚ} {n : ℤ} (h1 : (n : ℚ) ≤ q) (h2 : q < n + 1) : ⌊q⌋ = n :=
  Int.floor_eq_iff.mpr ⟨h1, h2⟩

lemma jsToFixed2_eval {x : ℚ} {n : ℤ} (h1 : (n : ℚ) ≤ x * 100 + 1/2)
    (h2 : x * 100 + 1/2 < n + 1) : jsToFixed2 x = (n : ℚ) / 100 := by
  rw [jsToFixed2, floor_eval h1 h2]

lemma jsToFixed2_hundred : jsToFixed2 100 = 100 := by
  rw [@jsToFixed2_eval _ 10000 (by norm_num) (by norm_num)]; norm_num

lemma jsToFixed2_zero : jsToFixed2 0 = 0 := by
  rw [@jsToFixed2_eval _ 0 (by norm_num) (by norm_num)]; norm_num

/- ===== C5 ===== -/

/-- C5: `runSimulation` draws each annual return from the normal
distribution whose mean and standard deviation are exactly (0.06, 0.08)
for low, (0.09, 0.15) for medium and (0.12, 0.22) for high; every
unrecognized risk-tolerance string silently uses the medium parameters
(so `runSimulation` never throws there, and its success probability
coincides with the medium one draw-for-draw); the standard deviation is
non-decreasing from low to medium to high. -/
theorem risk_parameters_spec :
    riskProfileFor "low" = ⟨6/100, 8/100⟩ ∧
    riskProfileFor "medium" = ⟨9/100, 15/100⟩ ∧
    riskProfileFor "high" = ⟨12/100, 22/100⟩ ∧
    (∀ s : String, s ≠ "low" → s ≠ "medium" → s ≠ "high" →
      riskProfileFor s = riskProfileFor "medium" ∧
      ∀ (h : ℕ) (I G : ℚ) (z : ℕ → ℕ → ℚ),
        (runSimulation s h I G z).successProbability =
          (runSimulation "medium" h I G z).successProbability) ∧
    (riskProfileFor "low").stdDev ≤ (riskProfileFor "medium").stdDev ∧
    (riskProfileFor "medium").stdDev ≤ (riskProfileFor "high").stdDev := by
  refine ⟨by simp [riskProfileFor], by simp [riskProfileFor], by simp [riskProfileFor],
    ?_, ?_, ?_⟩
  · intro s h1 h2 h3
    have hs : riskProfileFor s = riskProfileFor "medium" := by
      simp [riskProfileFor, h1, h2, h3]
    refine ⟨hs, ?_⟩
    intro h I G z
    simp only [runSimulation, successCount, hs]
  · simp [riskProfileFor]; norm_num
  · simp [riskProfileFor]; norm_num

/-- C5 witness: the unrecognized tolerance string `aggressive` uses the
medium parameters. -/
theorem risk_parameters_spec_witness :
    riskProfileFor "aggressive" = riskProfileFor "medium" :=
  (risk_parameters_spec.2.2.2.1 "aggressive" (by decide) (by decide) (by decide)).1

/- ===== C10 ===== -/

/-- C10: for the regions us and india, each allocation triple of the
base-strategy matrix and of the standalone `getRiskAdjustedAllocation`
lookup (whose unrecognized tolerances fall back to medium) sums to
exactly 100, with the alternatives share exactly 10 in both tables. -/
theorem allocation_tables_sum_100 :
    (∀ pr : String, pr = "us" ∨ pr = "india" →
      ∀ rt : String, rt = "low" ∨ rt = "medium" ∨ rt = "high" →
        ∃ b : BaseStrategy, baseStrategies pr rt = some b ∧
          b.bondAllocation + b.equityAllocation + b.altAllocation = 100 ∧
          b.altAllocation = 10) ∧
    (∀ pr : String, pr = "us" ∨ pr = "india" → ∀ rt : String,
      (getRiskAdjustedAllocation pr rt).equity + (getRiskAdjustedAllocation pr rt).bonds +
        (getRiskAdjustedAllocation pr rt).alternatives = 100 ∧
      (getRiskAdjustedAllocation pr rt).alternatives = 10) := by
  constructor
  · rintro pr hpr rt hrt
    rcases hpr with rfl | rfl <;> rcases hrt with rfl | rfl | rfl <;>
      refine ⟨_, rfl, ?_, ?_⟩ <;> simp [baseStrategies] <;> norm_num
  · rintro pr hpr rt
    rcases hpr with rfl | rfl <;>
      · by_cases h1 : rt = "low"
        · simp [getRiskAdjustedAllocation, h1]; norm_num
        · by_cases h2 : rt = "medium"
          · simp [getRiskAdjustedAllocation, h1, h2]; norm_num
          · by_cases h3 : rt = "high" <;>
              simp [getRiskAdjustedAllocation, h1, h2, h3] <;> norm_num

/-- C10 witness: the standalone lookup at region india with an
unrecognized tolerance string sums to 100 with alternatives 10. -/
theorem allocation_tables_sum_100_witness :
    (getRiskAdjustedAllocation "india" "turbo").equity +
        (getRiskAdjustedAllocation "india" "turbo").bonds +
        (getRiskAdjustedAllocation "india" "turbo").alternatives = 100 ∧
      (getRiskAdjustedAllocation "india" "turbo").alternatives = 10 :=
  allocation_tables_sum_100.2 "india" (Or.inr rfl) "turbo"

/- ===== C2 ===== -/

/-- C2: a stream error rejects the ingestion promise with the raw
parse-phase error and leaves the store untouched (no deletion, no
insertion); a deletion or bulk-insert failure instead rejects with the
distinct `DatabaseError`, so storage-phase failures are distinguishable
from parse-phase failures. -/
theorem ingestion_failure_phases :
    ∀ (rows : List RawRow) (userId : String) (db : DbBehavior) (st : Store),
      parseAndSaveEsopCSV rows true userId db st = (IngestOutcome.parseError, st) ∧
      (db.deleteFails = true ∨ db.insertFails = true →
        (parseAndSaveEsopCSV rows false userId db st).1 = IngestOutcome.databaseError) ∧
      IngestOutcome.parseError ≠ IngestOutcome.databaseError := by
  intro rows userId db st
  refine ⟨rfl, ?_, by simp⟩
  intro h
  rcases hd : db.deleteFails with _ | _
  · rcases h with h | h
    · rw [hd] at h; exact absurd h (by simp)
    · simp [parseAndSaveEsopCSV, hd, h]
  · simp [parseAndSaveEsopCSV, hd]

/-- C2 witness: a failing deletion with a clean stream yields the
database-error outcome. -/
theorem ingestion_failure_phases_witness :
    (parseAndSaveEsopCSV [] false "u" ⟨true, false⟩ []).1 = IngestOutcome.databaseError :=
  (ingestion_failure_phases [] "u" ⟨true, false⟩ []).2.1 (Or.inl rfl)

/- ===== C8 ===== -/

/-- C8 counterexample: at total ESOP value 88 the code's monthly savings
target `Math.round(esopValue * 0.2 / 12)` is 1, while the claim's
`estimatedCost` (the rounded 20%, here 18) divided by 12 and rounded
is 2 — so the monthly target does not equal the rounded cost divided by
12 rounded. -/
theorem esop_funding_counterexample :
    (generateDetailedEsopStrategy "us" "medium" ⟨some 88, false⟩).exerciseFundingStrategy.monthlySavingsTarget = 1 ∧
    (generateDetailedEsopStrategy "us" "medium" ⟨some 88, false⟩).exerciseFundingStrategy.estimatedCost = 18 ∧
    jsRound ((18 : ℚ) / 12) = 2 := by
  have hv : jsOrQ (some (88 : ℚ)) 100000 = 88 := by norm_num [jsOrQ]
  refine ⟨?_, ?_, ?_⟩
  · show jsRound (jsOrQ (some (88 : ℚ)) 100000 * (20/100) / 12) = 1
    rw [hv, jsRound]; exact floor_eval (by norm_num) (by norm_num)
  · show jsRound (jsOrQ (some (88 : ℚ)) 100000 * (20/100)) = 18
    rw [hv, jsRound]; exact floor_eval (by norm_num) (by norm_num)
  · rw [jsRound]; exact floor_eval (by norm_num) (by norm_num)

/-- C8 amended: the recommended annual liquidation percentage is the
risk-tolerance base (10 low, 15 medium, 20 high) without the
concentration-risk flag and min(base + 5, 25) with it — low with
concentration gives 15 — and the exercise-funding `estimatedCost` is 20%
of the total ESOP value rounded, while `monthlySavingsTarget` is the
UNROUNDED 20% divided by 12 and then rounded (not the rounded cost
divided by 12). -/
theorem esop_liquidation_and_funding :
    (∀ (pr rt : String) (a : AnalyticsSummary),
      basePct "low" = 10 ∧ basePct "medium" = 15 ∧ basePct "high" = 20 ∧
      (a.highConcentration = false →
        (generateDetailedEsopStrategy pr rt a).liquidationRecommendation = basePct rt) ∧
      (a.highConcentration = true →
        (generateDetailedEsopStrategy pr rt a).liquidationRecommendation =
          min (basePct rt + 5) 25) ∧
      (generateDetailedEsopStrategy pr rt a).exerciseFundingStrategy.annualSellPercentage =
        (generateDetailedEsopStrategy pr rt a).liquidationRecommendation ∧
      (generateDetailedEsopStrategy pr rt a).exerciseFundingStrategy.estimatedCost =
        jsRound (jsOrQ a.totalValue 100000 * (20/100)) ∧
      (generateDetailedEsopStrategy pr rt a).exerciseFundingStrategy.monthlySavingsTarget =
        jsRound (jsOrQ a.totalValue 100000 * (20/100) / 12)) ∧
    (∀ (pr : String) (v : Option ℚ),
      (generateDetailedEsopStrategy pr "low" ⟨v, true⟩).liquidationRecommendation = 15) := by
  constructor
  · intro pr rt a
    refine ⟨by simp [basePct], by simp [basePct], by simp [basePct], ?_, ?_, rfl, rfl, rfl⟩
    · intro h
      simp [generateDetailedEsopStrategy, basePct, h]
    · intro h
      simp [generateDetailedEsopStrategy, basePct, h]
  · intro pr v
    simp [generateDetailedEsopStrategy]
    norm_num

/-- C8 witness: without the concentration flag, a low-tolerance user gets
the base percentage. -/
theorem esop_liquidation_and_funding_witness :
    (generateDetailedEsopStrategy "us" "low" ⟨none, false⟩).liquidationRecommendation =
      basePct "low" :=
  (esop_liquidation_and_funding.1 "us" "low" ⟨none, false⟩).2.2.2.1 rfl

/- ===== C9 ===== -/

/-- C9 counterexample: `generateDetailedBenchmarks` is not a function of
its arguments alone — called with the same region on two different days
of the ambient clock it returns different results (the `lastUpdated`
field records the current date). -/
theorem benchmarks_clock_dependence :
    generateDetailedBenchmarks "us" ⟨2024, 1, 1⟩ ≠ generateDetailedBenchmarks "us" ⟨2024, 1, 2⟩ := by
  intro h
  have h2 := congrArg (fun o => Option.map BenchmarksResult.lastUpdated o) h
  simp [generateDetailedBenchmarks] at h2

/-- C9 amended: `generateDetailedStrategies`, `calculateDownsideMetrics`,
`generateDetailedEsopStrategy` and `getRiskAdjustedAllocation` are pure
functions of their arguments (equal arguments give equal results, no
side effects); `generateDetailedBenchmarks` additionally reads the
ambient clock, and is deterministic only in (arguments, current date):
everything except its `lastUpdated` field is independent of the clock,
and `lastUpdated` equals the clock date. -/
theorem strategy_synthesizer_determinism :
    (∀ (pr rt : String) (g : UserGoals),
      generateDetailedStrategies pr rt g = generateDetailedStrategies pr rt g) ∧
    (∀ (pr rt : String) (mc : MarketContext),
      calculateDownsideMetrics pr rt mc = calculateDownsideMetrics pr rt mc) ∧
    (∀ (pr rt : String) (a : AnalyticsSummary),
      generateDetailedEsopStrategy pr rt a = generateDetailedEsopStrategy pr rt a) ∧
    (∀ pr rt : String,
      getRiskAdjustedAllocation pr rt = getRiskAdjustedAllocation pr rt) ∧
    (∀ (pr : String) (d1 d2 : CalDate),
      (generateDetailedBenchmarks pr d1).map eraseLastUpdated =
        (generateDetailedBenchmarks pr d2).map eraseLastUpdated) ∧
    (∀ (pr : String) (d : CalDate) (r : BenchmarksResult),
      generateDetailedBenchmarks pr d = some r → r.lastUpdated = d) := by
  refine ⟨fun _ _ _ => rfl, fun _ _ _ => rfl, fun _ _ _ => rfl, fun _ _ => rfl, ?_, ?_⟩
  · intro pr d1 d2
    by_cases h1 : pr = "us"
    · simp [generateDetailedBenchmarks, h1, eraseLastUpdated]
    · by_cases h2 : pr = "india" <;> simp [generateDetailedBenchmarks, h1, h2, eraseLastUpdated]
  · intro pr d r h
    by_cases h1 : pr = "us"
    · simp [generateDetailedBenchmarks, h1] at h
      rw [← h]
    · by_cases h2 : pr = "india"
      · simp [generateDetailedBenchmarks, h1, h2] at h
        rw [← h]
      · simp [generateDetailedBenchmarks, h1, h2] at h

/-- C9 witness: at region us on a concrete clock date the returned
`lastUpdated` equals that date. -/
theorem strategy_synthesizer_determinism_witness :
    ∃ r : BenchmarksResult, generateDetailedBenchmarks "us" ⟨2025, 1, 1⟩ = some r ∧
      r.lastUpdated = ⟨2025, 1, 1⟩ := by
  refine ⟨_, rfl, ?_⟩
  exact strategy_synthesizer_determinism.2.2.2.2.2 "us" ⟨2025, 1, 1⟩ _ rfl

/- ===== C7 ===== -/

/-- C7 counterexample: the claim quantifies over every input, but with the
unrecognized risk-tolerance string `turbo` the lookup
`baseStrategies[riskTolerance]` is undefined and the function throws on
the first field access instead of returning four strategies. -/
theorem four_strategies_counterexample :
    generateDetailedStrategies "us" "turbo" ⟨none, none, none, none, none⟩ = none := by
  simp [generateDetailedStrategies, baseStrategies]

/-- C7 amended: for every recognized region (us, india) and risk tolerance
(low, medium, high) and every goal profile, `generateDetailedStrategies`
returns exactly four strategies in fixed order — core, sector,
ESOP-diversification, then a fourth — and the fourth is exactly one of
three mutually exclusive strategies chosen by priority: retirement income
iff the retirement-focus flag holds (age > 45 or retirementAge − age <
15), else opportunistic growth iff the savings rate exceeds 30, else
financial safety; for age 30 and retirement age 60 the fourth is never
retirement income.  Unrecognized regions or tolerances throw instead. -/
theorem four_strategies_fixed_order :
    (∀ (pr rt : String) (g : UserGoals), (pr = "us" ∨ pr = "india") →
      (rt = "low" ∨ rt = "medium" ∨ rt = "high") →
      ∃ l : List Strategy, generateDetailedStrategies pr rt g = some l ∧
        l.map Strategy.title =
          ["Core Investment Strategy", "Sector Allocation Strategy",
           "ESOP Diversification Strategy", fourthTitle g]) ∧
    (∀ g : UserGoals,
      (fourthTitle g = "Retirement Income Strategy" ↔ hasRetirementFocusOf g = true) ∧
      (hasRetirementFocusOf g = false →
        (fourthTitle g = "Opportunistic Growth Strategy" ↔ 30 < savingsRateOf g)) ∧
      (hasRetirementFocusOf g = false → ¬ 30 < savingsRateOf g →
        fourthTitle g = "Financial Safety Strategy")) ∧
    (∀ g : UserGoals, g.currentAge = some 30 → g.retirementAge = some 60 →
      fourthTitle g ≠ "Retirement Income Strategy") := by
  refine ⟨?_, ?_, ?_⟩
  · rintro pr rt g hpr hrt
    rcases hpr with rfl | rfl <;> rcases hrt with rfl | rfl | rfl <;>
      refine ⟨_, rfl, ?_⟩ <;>
      · by_cases hf : hasRetirementFocusOf g
        · simp [fourthTitle, hf]
        · by_cases hs : 30 < savingsRateOf g <;> simp [fourthTitle, hf, hs]
  · intro g
    refine ⟨?_, ?_, ?_⟩
    · by_cases hf : hasRetirementFocusOf g <;> by_cases hs : 30 < savingsRateOf g <;>
        simp [fourthTitle, hf, hs]
    · intro hf
      by_cases hs : 30 < savingsRateOf g <;> simp [fourthTitle, hf, hs]
    · intro hf hs
      simp [fourthTitle, hf, hs]
  · intro g h30 h60
    have hf : hasRetirementFocusOf g = false := by
      simp [hasRetirementFocusOf, h30, h60, jsOrQ]
      norm_num
    by_cases hs : 30 < savingsRateOf g <;> simp [fourthTitle, hf, hs]

/-- C7 witness: at region us, low tolerance and an all-default goal
profile the four titles are core, sector, ESOP-diversification and (the
default profile has a 50% savings rate and no retirement focus)
opportunistic growth. -/
theorem four_strategies_fixed_order_witness :
    ∃ l : List Strategy,
      generateDetailedStrategies "us" "low" ⟨none, none, none, none, none⟩ = some l ∧
      l.map Strategy.title =
        ["Core Investment Strategy", "Sector Allocation Strategy",
         "ESOP Diversification Strategy", "Opportunistic Growth Strategy"] := by
  have h := four_strategies_fixed_order.1 "us" "low" ⟨none, none, none, none, none⟩
    (Or.inl rfl) (Or.inl (by rfl))
  have ht : fourthTitle ⟨none, none, none, none, none⟩ = "Opportunistic Growth Strategy" := by
    simp [fourthTitle, hasRetirementFocusOf, savingsRateOf, jsOrQ]
    norm_num
  rwa [ht] at h

/- ===== C4 ===== -/

/-- C4 counterexample: with goalAmount 0 but a negative initial
investment, every scenario's final value is negative (here with horizon
0, where no draw happens at all), so `runSimulation` returns success
probability 0, not 100 — the claim fails for negative initial values. -/
theorem zero_goal_success_counterexample :
    (runSimulation "medium" 0 (-1) 0 (fun _ _ => 0)).successProbability ≠ 100 := by
  have hcount : successCount "medium" 0 (-1) 0 (fun _ _ => 0) = 0 := by
    unfold successCount
    rw [List.filter_eq_nil_iff.mpr ?hnone]
    · rfl
    case hnone =>
      intro a _
      simp only [trialValue, decide_eq_true_eq]
      norm_num
  show jsToFixed2 ((successCount "medium" 0 (-1) 0 (fun _ _ => 0) : ℚ) / 1000 * 100) ≠ 100
  rw [hcount, show (((0:ℕ) : ℚ)) / 1000 * 100 = 0 from by norm_num, jsToFixed2_zero]
  norm_num

/-- C4 amended: with goalAmount 0, for every risk-tolerance string, every
horizon, every NONNEGATIVE initial investment and every random stream
whose sampled annual growth factors `1 + (mean + z·stdDev)` stay
nonnegative (vacuously true when the horizon is 0), all 1000 scenarios
succeed and `runSimulation` returns success probability 100. -/
theorem zero_goal_success (rt : String) (h : ℕ) (I : ℚ) (z : ℕ → ℕ → ℚ)
    (hI : 0 ≤ I)
    (hz : ∀ i y, y < h →
      0 ≤ 1 + ((riskProfileFor rt).mean + z i y * (riskProfileFor rt).stdDev)) :
    (runSimulation rt h I 0 z).successProbability = 100 := by
  have hval : ∀ i n, n ≤ h →
      0 ≤ trialValue (riskProfileFor rt).mean (riskProfileFor rt).stdDev (z i) I n := by
    intro i n
    induction n with
    | zero => intro _; exact hI
    | succ k ih =>
      intro hk
      exact mul_nonneg (ih (Nat.le_of_succ_le hk)) (hz i k (Nat.lt_of_succ_le hk))
  have hcount : successCount rt h I 0 z = 1000 := by
    unfold successCount
    rw [List.filter_eq_self.mpr ?hall]
    · simp
    case hall =>
      intro a _
      exact decide_eq_true (hval a h le_rfl)
  show jsToFixed2 ((successCount rt h I 0 z : ℚ) / 1000 * 100) = 100
  rw [hcount, show (((1000:ℕ) : ℚ)) / 1000 * 100 = 100 from by norm_num, jsToFixed2_hundred]

/-- C4 witness: a nonnegative initial investment with benign draws over a
one-year horizon reaches the zero goal with probability 100. -/
theorem zero_goal_success_witness :
    (runSimulation "low" 1 5 0 (fun _ _ => 0)).successProbability = 100 :=
  zero_goal_success "low" 1 5 (fun _ _ => 0) (by norm_num)
    (fun i y hy => by norm_num [riskProfileFor])

/- ===== C6 ===== -/

lemma jsToFixed2_bounds {x : ℚ} (h0 : 0 ≤ x) (h100 : x ≤ 100) :
    0 ≤ jsToFixed2 x ∧ jsToFixed2 x ≤ 100 ∧ ∃ k : ℤ, jsToFixed2 x * 100 = (k : ℚ) := by
  have hfl : (0 : ℤ) ≤ ⌊x * 100 + 1/2⌋ := Int.floor_nonneg.mpr (by linarith)
  have hfu : ⌊x * 100 + 1/2⌋ ≤ 10000 := by
    have h1 : ⌊x * 100 + 1/2⌋ ≤ ⌊(10000 : ℚ) + 1/2⌋ := Int.floor_le_floor (by linarith)
    have h2 : ⌊(10000 : ℚ) + 1/2⌋ = 10000 := floor_eval (by norm_num) (by norm_num)
    omega
  refine ⟨?_, ?_, ⟨⌊x * 100 + 1/2⌋, ?_⟩⟩
  · rw [jsToFixed2]
    exact div_nonneg (by exact_mod_cast hfl) (by norm_num)
  · rw [jsToFixed2, div_le_iff₀ (by norm_num)]
    have : ((⌊x * 100 + 1/2⌋ : ℤ) : ℚ) ≤ ((10000 : ℤ) : ℚ) := by exact_mod_cast hfu
    linarith
  · rw [jsToFixed2]
    field_simp

lemma successProbability_bounds (rt : String) (h : ℕ) (I G : ℚ) (z : ℕ → ℕ → ℚ) :
    0 ≤ (runSimulation rt h I G z).successProbability ∧
    (runSimulation rt h I G z).successProbability ≤ 100 ∧
    ∃ k : ℤ, (runSimulation rt h I G z).successProbability * 100 = (k : ℚ) := by
  have hle : successCount rt h I G z ≤ 1000 := by
    unfold successCount
    calc ((List.range 1000).filter _).length ≤ (List.range 1000).length :=
          List.length_filter_le _ _
      _ = 1000 := by simp
  have hcast : ((successCount rt h I G z : ℕ) : ℚ) ≤ 1000 := by exact_mod_cast hle
  have h0 : (0 : ℚ) ≤ (successCount rt h I G z : ℚ) / 1000 * 100 := by positivity
  have h100 : (successCount rt h I G z : ℚ) / 1000 * 100 ≤ 100 := by linarith
  exact jsToFixed2_bounds h0 h100

set_option maxRecDepth 4000 in
/-- C6: `generateSuccessProbabilities` derives the batch initial
investment as the sum over all holdings of vested × exercisePrice and the
goal as retirementAge × 50000, runs one simulation per risk profile
(low/medium/high) and horizon in {5, 10, 15, 20}, and every one of the
twelve returned probabilities lies in [0, 100] and is rounded to two
decimal places (its value times 100 is an integer). -/
theorem batch_probabilities_spec :
    ∀ (esopData : List Grant) (retirementAge : ℚ) (z : String → ℕ → ℕ → ℕ → ℚ),
      (generateSuccessProbabilities esopData retirementAge z =
        let I := esopData.foldl (fun sum g => sum + g.vested * g.exercisePrice) 0
        let G := retirementAge * 50000
        { lowRisk := ⟨(runSimulation "low" 5 I G (z "low" 5)).successProbability,
            (runSimulation "low" 10 I G (z "low" 10)).successProbability,
            (runSimulation "low" 15 I G (z "low" 15)).successProbability,
            (runSimulation "low" 20 I G (z "low" 20)).successProbability⟩
          mediumRisk := ⟨(runSimulation "medium" 5 I G (z "medium" 5)).successProbability,
            (runSimulation "medium" 10 I G (z "medium" 10)).successProbability,
            (runSimulation "medium" 15 I G (z "medium" 15)).successProbability,
            (runSimulation "medium" 20 I G (z "medium" 20)).successProbability⟩
          highRisk := ⟨(runSimulation "high" 5 I G (z "high" 5)).successProbability,
            (runSimulation "high" 10 I G (z "high" 10)).successProbability,
            (runSimulation "high" 15 I G (z "high" 15)).successProbability,
            (runSimulation "high" 20 I G (z "high" 20)).successProbability⟩ }) ∧
      ∀ q ∈ probList (generateSuccessProbabilities esopData retirementAge z),
        0 ≤ q ∧ q ≤ 100 ∧ ∃ k : ℤ, q * 100 = (k : ℚ) := by
  intro esopData retirementAge z
  refine ⟨rfl, ?_⟩
  intro q hq
  simp only [probList, List.mem_cons, List.not_mem_nil, or_false] at hq
  rcases hq with rfl | rfl | rfl | rfl | rfl | rfl | rfl | rfl | rfl | rfl | rfl | rfl <;>
    exact successProbability_bounds _ _ _ _ _

/-- C6 witness: the first entry of a concrete batch is a bounded
two-decimal probability. -/
theorem batch_probabilities_spec_witness :
    0 ≤ (generateSuccessProbabilities [] 60 (fun _ _ _ _ => 0)).lowRisk.year5 ∧
    (generateSuccessProbabilities [] 60 (fun _ _ _ _ => 0)).lowRisk.year5 ≤ 100 ∧
    ∃ k : ℤ, (generateSuccessProbabilities [] 60 (fun _ _ _ _ => 0)).lowRisk.year5 * 100 = (k : ℚ) :=
  (batch_probabilities_spec [] 60 (fun _ _ _ _ => 0)).2 _ (by simp [probList])

/- ===== C1 ===== -/

lemma rowLookup_none_of_absent (data : RawRow) (keys : List String)
    (h : ∀ k ∈ keys, data k = none ∨ data k = some "") :
    rowLookup data keys = none := by
  induction keys with
  | nil => rfl
  | cons k ks ih =>
    have hk := h k (List.mem_cons_self k ks)
    have hks := ih (fun a ha => h a (List.mem_cons_of_mem k ha))
    rcases hk with hk | hk <;> simp [rowLookup, hk, hks]

/-- C1 counterexample: a row whose `totalGrants` cell holds the
non-numeric value `abc` normalizes to a NaN `totalGrants` (modelled
`none`), not to 0: `parseInt` of a truthy non-numeric string is NaN and
the code stores it as is. -/
theorem numeric_zero_default_counterexample :
    (processRow rowAbc "u1").totalGrants = none ∧
    (processRow rowAbc "u1").totalGrants ≠ some 0 := by
  constructor <;> decide

/-- C1 amended: each numeric field of the normalized record (totalGrants,
vested, unvested, exercised, exercisePrice) is zero whenever all of that
field's alias keys are absent or hold empty (falsy) strings — the
numeric default 0 is then parsed; but when the first truthy alias value
is present and non-numeric, the field is NaN rather than 0. -/
theorem numeric_zero_default :
    ∀ (data : RawRow) (userId : String),
      ((∀ k ∈ ["totalGrants", "total_grants", "grants"], data k = none ∨ data k = some "") →
        (processRow data userId).totalGrants = some 0) ∧
      ((∀ k ∈ ["vested"], data k = none ∨ data k = some "") →
        (processRow data userId).vested = some 0) ∧
      ((∀ k ∈ ["unvested"], data k = none ∨ data k = some "") →
        (processRow data userId).unvested = some 0) ∧
      ((∀ k ∈ ["exercised"], data k = none ∨ data k = some "") →
        (processRow data userId).exercised = some 0) ∧
      ((∀ k ∈ ["exercisePrice", "exercise_price", "price"], data k = none ∨ data k = some "") →
        (processRow data userId).exercisePrice = some 0) := by
  intro data userId
  refine ⟨fun h => ?_, fun h => ?_, fun h => ?_, fun h => ?_, fun h => ?_⟩ <;>
    simp only [processRow, intField, floatField, rowLookup_none_of_absent data _ h]

/-- C1 witness: a row with no cells at all normalizes with all five
numeric fields zero. -/
theorem numeric_zero_default_witness :
    (processRow (fun _ => none) "u2").totalGrants = some 0 ∧
    (processRow (fun _ => none) "u2").vested = some 0 ∧
    (processRow (fun _ => none) "u2").unvested = some 0 ∧
    (processRow (fun _ => none) "u2").exercised = some 0 ∧
    (processRow (fun _ => none) "u2").exercisePrice = some 0 := by
  have h := numeric_zero_default (fun _ => none) "u2"
  exact ⟨h.1 (by simp), h.2.1 (by simp), h.2.2.1 (by simp), h.2.2.2.1 (by simp),
    h.2.2.2.2 (by simp)⟩

/- ===== C3 ===== -/

lemma splitCh_ne_nil (c : Char) (l : List Char) : splitCh c l ≠ [] := by
  induction l with
  | nil => simp [splitCh]
  | cons x xs ih =>
    simp only [splitCh]
    rcases h : splitCh c xs with _ | ⟨p, ps⟩
    · exact absurd h ih
    · by_cases hx : x = c <;> simp [hx]

lemma splitCh_append (c : Char) (xs ys : List Char) (h : c ∉ xs) :
    splitCh c (xs ++ c :: ys) = xs :: splitCh c ys := by
  induction xs with
  | nil =>
    simp only [List.nil_append, splitCh]
    rcases h2 : splitCh c ys with _ | ⟨p, ps⟩
    · exact absurd h2 (splitCh_ne_nil c ys)
    · simp
  | cons x xs ih =>
    have hx : x ≠ c := fun e => h (e ▸ List.mem_cons_self x xs)
    have ih2 := ih (fun hm => h (List.mem_cons_of_mem x hm))
    simp only [List.cons_append, splitCh, List.append_eq]
    rw [ih2]
    simp [hx]

lemma splitCh_single (c : Char) (xs : List Char) (h : c ∉ xs) : splitCh c xs = [xs] := by
  induction xs with
  | nil => rfl
  | cons x xs ih =>
    have hx : x ≠ c := fun e => h (e ▸ List.mem_cons_self x xs)
    have ih2 := ih (fun hm => h (List.mem_cons_of_mem x hm))
    simp only [splitCh]
    rw [ih2]
    simp [hx]

lemma not_mem_digits {c : Char} (hc : isDigitChar c = false) {xs : List Char}
    (hx : xs.all isDigitChar = true) : c ∉ xs := fun hmem => by
  have := List.all_eq_true.mp hx c hmem
  rw [hc] at this
  cases this

lemma takeDigitsC_all {ds : List Char} (h : ds.all isDigitChar = true) :
    takeDigitsC ds = ds := by
  induction ds with
  | nil => rfl
  | cons x xs ih =>
    rw [List.all_cons, Bool.and_eq_true] at h
    simp [takeDigitsC, h.1, ih h.2]

lemma dropWhile_ws_digits {ds : List Char} (h : ds.all isDigitChar = true) :
    ds.dropWhile jsWhitespace = ds := by
  cases ds with
  | nil => rfl
  | cons x xs =>
    rw [List.all_cons, Bool.and_eq_true] at h
    have hws : jsWhitespace x = false := by
      rcases hb : jsWhitespace x
      · rfl
      · exfalso
        have hx := h.1
        simp only [jsWhitespace] at hb
        rcases Bool.or_eq_true_iff.mp hb with h1 | h1
        · rcases Bool.or_eq_true_iff.mp h1 with h2 | h2
          · rcases Bool.or_eq_true_iff.mp h2 with h3 | h3
            · rw [decide_eq_true_eq] at h3; subst h3; exact absurd hx (by decide)
            · rw [decide_eq_true_eq] at h3; subst h3; exact absurd hx (by decide)
          · rw [decide_eq_true_eq] at h2; subst h2; exact absurd hx (by decide)
        · rw [decide_eq_true_eq] at h1; subst h1; exact absurd hx (by decide)
    simp [List.dropWhile, hws]

lemma splitSign_digits {ds : List Char} (h0 : ds ≠ []) (h : ds.all isDigitChar = true) :
    splitSign ds = (1, ds) := by
  cases ds with
  | nil => exact absurd rfl h0
  | cons x xs =>
    rw [List.all_cons, Bool.and_eq_true] at h
    have h1 : x ≠ '-' := fun e => by rw [e] at h; exact absurd h.1 (by decide)
    have h2 : x ≠ '+' := fun e => by rw [e] at h; exact absurd h.1 (by decide)
    simp [splitSign, h1, h2]

lemma jsNumberOfChars_digits {ds : List Char} (h0 : ds ≠ [])
    (h : ds.all isDigitChar = true) : jsNumberOfChars ds = some ((digitsVal ds : ℚ)) := by
  have hrev : ds.reverse.all isDigitChar = true := by
    rw [List.all_eq_true] at h ⊢
    intro x hx
    exact h x (List.mem_reverse.mp hx)
  have ht : ((ds.dropWhile jsWhitespace).reverse.dropWhile jsWhitespace).reverse = ds := by
    rw [dropWhile_ws_digits h, dropWhile_ws_digits hrev, List.reverse_reverse]
  rw [jsNumberOfChars]
  simp only [ht]
  rw [if_neg h0, splitSign_digits h0 h]
  simp only [takeDigitsC_all h, List.drop_length]
  simp [h0]

lemma jsTrunc_natCast (n : ℕ) : jsTrunc ((n : ℚ)) = (n : ℤ) := by
  rw [jsTrunc, if_neg (not_lt.mpr (by positivity)), Int.floor_natCast]

lemma jsTrunc_natCast_sub_one {m : ℕ} (h : 1 ≤ m) :
    jsTrunc ((m : ℚ) - 1) = (m : ℤ) - 1 := by
  have hcast : ((m : ℚ)) - 1 = (((m : ℤ) - 1 : ℤ) : ℚ) := by push_cast; ring
  have hge : (0 : ℚ) ≤ (((m : ℤ) - 1 : ℤ) : ℚ) := by
    exact_mod_cast (by omega : (0 : ℤ) ≤ (m : ℤ) - 1)
  rw [jsTrunc, hcast, if_neg (not_lt.mpr hge), Int.floor_intCast]

lemma normYM_id (y : ℤ) (m0 : ℤ) (h0 : 0 ≤ m0) (h12 : m0 < 12) :
    normYM y m0 = (y, m0.toNat + 1) := by
  rw [normYM, Int.ediv_eq_zero_of_lt h0 h12, Int.emod_eq_of_lt h0 h12]
  simp

lemma rollD_stay (fuel : ℕ) (y : ℤ) (m : ℕ) (d : ℤ) (h1 : 1 ≤ d)
    (h2 : d ≤ (daysInMonth y m : ℤ)) : rollD fuel y m d = ⟨y, m, d.toNat⟩ := by
  cases fuel with
  | zero => rfl
  | succ f =>
    rw [rollD, if_neg (by omega), if_neg (by omega)]

lemma mkJsDate_exact (y : ℤ) (m d : ℕ) (hy : 100 ≤ y) (hm1 : 1 ≤ m) (hm2 : m ≤ 12)
    (hd1 : 1 ≤ d) (hd2 : d ≤ daysInMonth y m) :
    mkJsDate y ((m : ℤ) - 1) (d : ℤ) = ⟨y, m, d⟩ := by
  have hadj : jsYearAdjust y = y := by
    rw [jsYearAdjust, if_neg (by omega)]
  have hnorm : normYM y ((m : ℤ) - 1) = (y, m) := by
    rw [normYM_id y _ (by omega) (by omega)]
    have e1 : ((m : ℤ) - 1).toNat = m - 1 := by omega
    rw [e1]
    have e2 : m - 1 + 1 = m := by omega
    rw [e2]
  rw [mkJsDate, hadj, hnorm]
  show rollD (((d : ℤ)).natAbs + 2) y m ((d : ℤ)) = ⟨y, m, d⟩
  rw [rollD_stay _ _ _ _ (by omega) (by exact_mod_cast hd2)]
  simp

lemma legacyMDY_eval {a b c : List Char}
    (ha : a.all isDigitChar = true) (hb : b.all isDigitChar = true)
    (hc : c.all isDigitChar = true)
    (ha0 : a ≠ []) (hb0 : b ≠ []) (hc0 : c ≠ [])
    (h1 : 1 ≤ digitsVal a) (h2 : digitsVal a ≤ 12)
    (h3 : 1 ≤ digitsVal b) (h4 : digitsVal b ≤ daysInMonth (digitsVal c) (digitsVal a))
    (h5 : 100 ≤ digitsVal c) (h6 : digitsVal c ≤ 9999) :
    legacyMDY a b c = some ⟨(digitsVal c : ℤ), digitsVal a, digitsVal b⟩ := by
  rw [legacyMDY, if_pos ⟨ha0, hb0, hc0, ha, hb, hc⟩,
    if_pos ⟨h1, h2, h3, h4, h5, h6⟩]

lemma legacyMDY_none_of_day13 {a b c : List Char} (h : 13 ≤ digitsVal a) :
    legacyMDY a b c = none := by
  rw [legacyMDY]
  by_cases hcond : a ≠ [] ∧ b ≠ [] ∧ c ≠ [] ∧ a.all isDigitChar = true ∧
      b.all isDigitChar = true ∧ c.all isDigitChar = true
  · rw [if_pos hcond, if_neg]
    rintro ⟨-, h12, -⟩
    omega
  · rw [if_neg hcond]

lemma parseDate_of_native {s : String} {d : CalDate}
    (hne : s.data ≠ []) (h : jsDateNative s.data = some d) : parseDate s = some d := by
  unfold parseDate
  rw [if_neg hne, h]

lemma parseDate_dash_fallback {s : String} {a b c : List Char}
    (hne : s.data ≠ [])
    (hnat : jsDateNative s.data = none)
    (hslash : splitCh '/' s.data = [s.data])
    (hdash : splitCh '-' s.data = [a, b, c]) :
    parseDate s = jsNewDateCtor c b a := by
  unfold parseDate
  rw [if_neg hne, hnat, hslash, hdash]

/-- C3 counterexample: `2020-13-45` denotes no calendar date in any
supported format (month 13), yet `parseDate` does not return null: the
`-`-split fallback constructor rolls the out-of-range components over
into a valid date.  This refutes the claim that every unparseable string
yields null. -/
theorem parse_date_counterexample : parseDate "2020-13-45" ≠ none := by decide

/-- C3 amended: `parseDate` is total (never throws) and tries, in order,
the native parse, the three-`/`-field month/day/year constructor and the
three-`-`-field day-month-year constructor, with first success winning.
For `/`-separated M/D/Y strings with month 1-12, in-month day and a 3- or
4-digit year, and for ISO YYYY-MM-DD strings with valid components, the
result is the literal calendar date; for `-`-separated D-M-Y strings this
holds when the day is 13-31 (an ambiguous day 1-12 is instead read by the
native parser as month-day-year); the empty string gives null.  But null
is returned only when all three attempts fail: unparseable three-field
numeric strings (such as `2020-13-45`) produce a rolled-over date
instead of null. -/
theorem parse_date_amended :
    (∀ mS dS yS : List Char,
      mS.all isDigitChar = true → dS.all isDigitChar = true → yS.all isDigitChar = true →
      1 ≤ digitsVal mS → digitsVal mS ≤ 12 →
      1 ≤ digitsVal dS → digitsVal dS ≤ daysInMonth (digitsVal yS) (digitsVal mS) →
      100 ≤ digitsVal yS → digitsVal yS ≤ 9999 →
      parseDate ⟨mS ++ '/' :: (dS ++ '/' :: yS)⟩ =
        some ⟨(digitsVal yS : ℤ), digitsVal mS, digitsVal dS⟩) ∧
    (∀ yS mS dS : List Char,
      yS.all isDigitChar = true → mS.all isDigitChar = true → dS.all isDigitChar = true →
      yS.length = 4 → mS.length = 2 → dS.length = 2 →
      1 ≤ digitsVal mS → digitsVal mS ≤ 12 →
      1 ≤ digitsVal dS → digitsVal dS ≤ daysInMonth (digitsVal yS) (digitsVal mS) →
      parseDate ⟨yS ++ '-' :: (mS ++ '-' :: dS)⟩ =
        some ⟨(digitsVal yS : ℤ), digitsVal mS, digitsVal dS⟩) ∧
    (∀ dS mS yS : List Char,
      dS.all isDigitChar = true → mS.all isDigitChar = true → yS.all isDigitChar = true →
      yS.length = 4 →
      1 ≤ digitsVal mS → digitsVal mS ≤ 12 →
      13 ≤ digitsVal dS → digitsVal dS ≤ daysInMonth (digitsVal yS) (digitsVal mS) →
      100 ≤ digitsVal yS →
      parseDate ⟨dS ++ '-' :: (mS ++ '-' :: yS)⟩ =
        some ⟨(digitsVal yS : ℤ), digitsVal mS, digitsVal dS⟩) ∧
    parseDate "" = none := by
  refine ⟨?_, ?_, ?_, by decide⟩
  · intro mS dS yS hmd hdd hyd hm1 hm2 hd1 hd2 hy1 hy2
    have hm0 : mS ≠ [] := by
      intro e; rw [e] at hm1; exact absurd hm1 (by decide)
    have hd0 : dS ≠ [] := by
      intro e; rw [e] at hd1; exact absurd hd1 (by decide)
    have hy0 : yS ≠ [] := by
      intro e; rw [e] at hy1; exact absurd hy1 (by decide)
    have hnm : '/' ∉ mS := not_mem_digits (by decide) hmd
    have hnd : '/' ∉ dS := not_mem_digits (by decide) hdd
    have hny : '/' ∉ yS := not_mem_digits (by decide) hyd
    have hmem : '/' ∈ mS ++ '/' :: (dS ++ '/' :: yS) := by simp
    have hsplit : splitCh '/' (mS ++ '/' :: (dS ++ '/' :: yS)) = [mS, dS, yS] := by
      rw [splitCh_append _ _ _ hnm, splitCh_append _ _ _ hnd, splitCh_single _ _ hny]
    have hne : mS ++ '/' :: (dS ++ '/' :: yS) ≠ [] := by simp
    have hnat : jsDateNative (mS ++ '/' :: (dS ++ '/' :: yS)) =
        some ⟨(digitsVal yS : ℤ), digitsVal mS, digitsVal dS⟩ := by
      rw [jsDateNative, if_pos hmem, hsplit]
      exact legacyMDY_eval hmd hdd hyd hm0 hd0 hy0 hm1 hm2 hd1 hd2 hy1 hy2
    exact parseDate_of_native hne hnat
  · intro yS mS dS hyd hmd hdd hy4 hm2l hd2l hm1 hm2 hd1 hd2
    have hny : '-' ∉ yS := not_mem_digits (by decide) hyd
    have hnm : '-' ∉ mS := not_mem_digits (by decide) hmd
    have hnd : '-' ∉ dS := not_mem_digits (by decide) hdd
    have hnoslash : '/' ∉ yS ++ '-' :: (mS ++ '-' :: dS) := by
      intro hmem
      rcases List.mem_append.mp hmem with h | h
      · exact not_mem_digits (by decide) hyd h
      · rcases List.mem_cons.mp h with h | h
        · exact absurd h (by decide)
        · rcases List.mem_append.mp h with h | h
          · exact not_mem_digits (by decide) hmd h
          · rcases List.mem_cons.mp h with h | h
            · exact absurd h (by decide)
            · exact not_mem_digits (by decide) hdd h
    have hsplit : splitCh '-' (yS ++ '-' :: (mS ++ '-' :: dS)) = [yS, mS, dS] := by
      rw [splitCh_append _ _ _ hny, splitCh_append _ _ _ hnm, splitCh_single _ _ hnd]
    have hne : yS ++ '-' :: (mS ++ '-' :: dS) ≠ [] := by simp
    have hnat : jsDateNative (yS ++ '-' :: (mS ++ '-' :: dS)) =
        some ⟨(digitsVal yS : ℤ), digitsVal mS, digitsVal dS⟩ := by
      rw [jsDateNative, if_neg hnoslash, hsplit]
      show (if yS.length = 4 ∧ mS.length = 2 ∧ dS.length = 2 ∧ yS.all isDigitChar = true ∧
            mS.all isDigitChar = true ∧ dS.all isDigitChar = true then
          isoYMD yS mS dS else legacyMDY yS mS dS) =
        some ⟨(digitsVal yS : ℤ), digitsVal mS, digitsVal dS⟩
      rw [if_pos ⟨hy4, hm2l, hd2l, hyd, hmd, hdd⟩, isoYMD, if_pos ⟨hm1, hm2, hd1, hd2⟩]
    exact parseDate_of_native hne hnat
  · intro dS mS yS hdd hmd hyd hy4 hm1 hm2 hd13 hd2 hy100
    have hd0 : dS ≠ [] := by
      intro e; rw [e] at hd13; exact absurd hd13 (by decide)
    have hm0 : mS ≠ [] := by
      intro e; rw [e] at hm1; exact absurd hm1 (by decide)
    have hy0 : yS ≠ [] := by
      intro e; rw [e] at hy100; exact absurd hy100 (by decide)
    have hnd : '-' ∉ dS := not_mem_digits (by decide) hdd
    have hnm : '-' ∉ mS := not_mem_digits (by decide) hmd
    have hny : '-' ∉ yS := not_mem_digits (by decide) hyd
    have hnoslash : '/' ∉ dS ++ '-' :: (mS ++ '-' :: yS) := by
      intro hmem
      rcases List.mem_append.mp hmem with h | h
      · exact not_mem_digits (by decide) hdd h
      · rcases List.mem_cons.mp h with h | h
        · exact absurd h (by decide)
        · rcases List.mem_append.mp h with h | h
          · exact not_mem_digits (by decide) hmd h
          · rcases List.mem_cons.mp h with h | h
            · exact absurd h (by decide)
            · exact not_mem_digits (by decide) hyd h
    have hsplitDash : splitCh '-' (dS ++ '-' :: (mS ++ '-' :: yS)) = [dS, mS, yS] := by
      rw [splitCh_append _ _ _ hnd, splitCh_append _ _ _ hnm, splitCh_single _ _ hny]
    have hsplitSlash : splitCh '/' (dS ++ '-' :: (mS ++ '-' :: yS)) =
        [dS ++ '-' :: (mS ++ '-' :: yS)] := splitCh_single _ _ hnoslash
    have hne : dS ++ '-' :: (mS ++ '-' :: yS) ≠ [] := by simp
    have hshape : ¬ (dS.length = 4 ∧ mS.length = 2 ∧ yS.length = 2 ∧
        dS.all isDigitChar = true ∧ mS.all isDigitChar = true ∧ yS.all isDigitChar = true) := by
      rintro ⟨-, -, hy2, -⟩
      omega
    have hnat : jsDateNative (dS ++ '-' :: (mS ++ '-' :: yS)) = none := by
      rw [jsDateNative, if_neg hnoslash, hsplitDash]
      show (if dS.length = 4 ∧ mS.length = 2 ∧ yS.length = 2 ∧ dS.all isDigitChar = true ∧
            mS.all isDigitChar = true ∧ yS.all isDigitChar = true then
          isoYMD dS mS yS else legacyMDY dS mS yS) = none
      rw [if_neg hshape]
      exact legacyMDY_none_of_day13 hd13
    have hctor : jsNewDateCtor yS mS dS =
        some ⟨(digitsVal yS : ℤ), digitsVal mS, digitsVal dS⟩ := by
      rw [jsNewDateCtor, jsNumberOfChars_digits hy0 hyd, jsNumberOfChars_digits hm0 hmd,
        jsNumberOfChars_digits hd0 hdd]
      show some (mkJsDate (jsTrunc ((digitsVal yS : ℚ)))
          (jsTrunc ((digitsVal mS : ℚ) - 1)) (jsTrunc ((digitsVal dS : ℚ)))) = _
      rw [jsTrunc_natCast, jsTrunc_natCast_sub_one hm1, jsTrunc_natCast]
      rw [mkJsDate_exact (digitsVal yS) (digitsVal mS) (digitsVal dS)
        (by exact_mod_cast hy100) hm1 hm2 (by omega) hd2]
    rw [parseDate_dash_fallback hne hnat hsplitSlash hsplitDash]
    exact hctor

/-- C3 witness: the unambiguous D-M-Y string `25-12-2020` parses to
25 December 2020. -/
theorem parse_date_amended_witness :
    parseDate "25-12-2020" = some ⟨2020, 12, 25⟩ := by
  have h := parse_date_amended.2.2.1 ['2', '5'] ['1', '2'] ['2', '0', '2', '0']
    (by decide) (by decide) (by decide) (by decide) (by decide) (by decide)
    (by decide) (by decide) (by decide)
  exact h

end EsopCore
